import Mathlib

/-!
Verification of the core numerics of the tetracyclic-polymer analysis
scripts: the gyration time-series statistics pipeline
(`compute_gyration.py`) and the theoretical graph analysis
(`tetracyclic_analysis.py`).

Numeric values are modelled as exact rationals; the only IEEE-754
behaviour that matters to the claims (numpy float64 division by a zero
denominator) is modelled explicitly by `PyFloat`/`npDiv`.
-/

/-- The failure kinds observable in the scripts.  Both scripts surface
every failure as a printed message plus a `None` return (or an uncaught
exception); the constructors record which code branch fired. -/
inductive PyErr where
  /-- A Python `TypeError`, e.g. calling a non-callable object. -/
  | typeError (msg : String)
  /-- A Python `IndexError`, e.g. `shape[1]` on a low-dimensional array. -/
  | indexError (msg : String)
  /-- A Python `ValueError`, e.g. `np.loadtxt` on malformed rows. -/
  | valueError (msg : String)
  /-- The explicit `"contains no valid data"` branch of
  `get_avg_rg_from_file`. -/
  | noValidData
  /-- The explicit `"Not enough data ... to analyze"` branch of
  `get_avg_rg_from_file`. -/
  | insufficientData
  deriving DecidableEq, Repr

namespace Gyration

/-- A text line of a LAMMPS gyration file, after lexing: a comment line
(first non-whitespace character `#`, skipped by
`np.loadtxt(..., comments='#')`), a blank line (also skipped), or a data
row of whitespace-separated numeric fields. -/
inductive RawLine where
  | comment
  | blank
  | data (fields : List ℚ)
  deriving DecidableEq, Repr

/-- The data rows kept by `np.loadtxt(filename, comments='#')`. -/
def loadRows (ls : List RawLine) : List (List ℚ) :=
  ls.filterMap fun l =>
    match l with
    | .data fs => some fs
    | _ => none

/-- `np.loadtxt` followed by the checks in `get_avg_rg_from_file`.
`loadtxt` squeezes its result: with no data rows the array has shape
`(0,)`; a single row of one field gives a 0-d array; a single row of
`c ≥ 2` fields gives shape `(c,)`; `n ≥ 2` rows of one field give shape
`(n,)`; ragged rows raise `ValueError`.  The script then tests
`data.ndim == 0` (its explicit "no valid data" branch) and reads
`data.shape[1]`, which raises `IndexError` on any array of dimension
below 2; every raised exception is caught by the enclosing `try` and
yields no time series.  Only `n ≥ 2` uniform rows of width `≥ 2`
survive, producing the `(timestep, value)` series from columns 0, 1. -/
def loadSeries (ls : List RawLine) : Except PyErr (List (ℚ × ℚ)) :=
  match loadRows ls with
  | [] => .error (.indexError "tuple index out of range")
  | r :: rs =>
    if rs.all fun q => q.length = r.length then
      match r, rs with
      | [_], [] => .error .noValidData
      | _, [] => .error (.indexError "tuple index out of range")
      | [_], _ :: _ => .error (.indexError "tuple index out of range")
      | [], _ => .error (.valueError "empty row")
      | _ :: _ :: _, _ :: _ =>
          .ok ((r :: rs).map fun q => (q.headD 0, (q.drop 1).headD 0))
    else .error (.valueError "could not determine number of columns")

/-- Arithmetic mean, `np.mean`. -/
def mean (l : List ℚ) : ℚ := l.sum / l.length

/-- Mean of the element-wise squares, `np.mean(equilibrated_rg ** 2)`. -/
def meanSquare (l : List ℚ) : ℚ := (l.map fun x => x ^ 2).sum / l.length

/-- Population variance (the square of `np.std`, which divides by the
count, not by count − 1). -/
def popVariance (l : List ℚ) : ℚ :=
  (l.map fun x => (x - mean l) ^ 2).sum / l.length

/-- The equilibration-window start computation of `get_avg_rg_from_file`,
as a function of the series length:
`equilibrated_start = (len(rg_values) * 3) // 4`, then
`if equilibrated_start == 0 and len(rg_values) > 1: equilibrated_start = 1`,
`elif len(rg_values) <= 1:` error. -/
def equilibrationStart (n : ℕ) : Except PyErr ℕ :=
  let s := n * 3 / 4
  if s = 0 ∧ n > 1 then .ok 1
  else if n ≤ 1 then .error .insufficientData
  else .ok s

/-- The tuple returned by `get_avg_rg_from_file` (the printed-only
`std_rg` is not part of it). -/
structure RgSummary where
  avg_rg_squared : ℚ
  avg_rg : ℚ
  timesteps : List ℚ
  rg_values : List ℚ
  equilibrated_start : ℕ
  equilibrated_rg : List ℚ
  deriving DecidableEq, Repr

/-- `get_avg_rg_from_file`, from the loaded line stream onwards. -/
def get_avg_rg_from_file (ls : List RawLine) : Except PyErr RgSummary := do
  let series ← loadSeries ls
  let timesteps := series.map Prod.fst
  let rg_values := series.map Prod.snd
  let start ← equilibrationStart rg_values.length
  let equilibrated_rg := rg_values.drop start
  pure { avg_rg_squared := meanSquare equilibrated_rg
         avg_rg := mean equilibrated_rg
         timesteps := timesteps
         rg_values := rg_values
         equilibrated_start := start
         equilibrated_rg := equilibrated_rg }

/-- An IEEE-754 float64 value, with finite values kept exact. -/
inductive PyFloat where
  | fin (q : ℚ)
  | inf
  | ninf
  | nan
  deriving DecidableEq, Repr

/-- numpy float64 division.  Dividing by a zero float64 does not raise
`ZeroDivisionError`: it emits a `RuntimeWarning` and produces `inf`,
`-inf` or `nan` by IEEE-754 rules.  Finite quotients are kept exact. -/
def npDiv (a b : ℚ) : PyFloat :=
  if b = 0 then
    if a = 0 then .nan else if a > 0 then .inf else .ninf
  else .fin (a / b)

/-- The ratio computation in `main`:
`custom_ratio = rg2_alpha / rg2_tree`.  There is no zero-denominator
check and numpy division never raises here, so no error case exists. -/
def ratioStep (rg2_alpha rg2_tree : ℚ) : Except PyErr PyFloat :=
  .ok (npDiv rg2_alpha rg2_tree)

/-- The core of `main`: load both files, then form the custom ratio.
A `None` from either load aborts (`sys.exit(1)`), modelled by error
propagation. -/
def mainRatio (alphaLines treeLines : List RawLine) :
    Except PyErr PyFloat := do
  let alpha_data ← get_avg_rg_from_file alphaLines
  let tree_data ← get_avg_rg_from_file treeLines
  ratioStep alpha_data.avg_rg_squared tree_data.avg_rg_squared

/-- The 8-record Alpha demo series: timesteps 0..7, values
`[10,10,10,10,20,20,20,20]`. -/
def alphaDemoLines : List RawLine :=
  [.data [0, 10], .data [1, 10], .data [2, 10], .data [3, 10],
   .data [4, 20], .data [5, 20], .data [6, 20], .data [7, 20]]

/-- The 8-record Tree demo series: timesteps 0..7, values
`[5,5,5,5,10,10,10,10]`. -/
def treeDemoLines : List RawLine :=
  [.data [0, 5], .data [1, 5], .data [2, 5], .data [3, 5],
   .data [4, 10], .data [5, 10], .data [6, 10], .data [7, 10]]

end Gyration

namespace Tetracyclic

/-- A networkx-style undirected simple graph: a vertex set and a set of
unordered edges.  networkx performs no validation: self-loops are legal
edges and endpoints absent from the node set are silently inserted. -/
structure NXGraph where
  nodes : Finset ℤ
  edges : Finset (Sym2 ℤ)
  deriving DecidableEq

/-- `nx.Graph()`. -/
def NXGraph.empty : NXGraph := ⟨∅, ∅⟩

/-- `G.add_nodes_from(ns)`. -/
def addNodesFrom (g : NXGraph) (ns : List ℤ) : NXGraph :=
  { g with nodes := g.nodes ∪ ns.toFinset }

/-- `G.add_edge(u, v)`: both endpoints are added to the node set if
absent, and the (possibly self-loop) edge is stored; no check raises. -/
def addEdge (g : NXGraph) (u v : ℤ) : NXGraph :=
  { nodes := insert u (insert v g.nodes)
    edges := insert s(u, v) g.edges }

/-- `G.add_edges_from(es)`. -/
def addEdgesFrom (g : NXGraph) (es : List (ℤ × ℤ)) : NXGraph :=
  es.foldl (fun g e => addEdge g e.1 e.2) g

/-- Evaluating the Python application `(3, 6)(5, 2)`: a tuple object is
not callable, so a `TypeError` is raised. -/
def tupleCall (_f _args : ℤ × ℤ) : Except PyErr (ℤ × ℤ) :=
  .error (.typeError "tuple object is not callable")

/-- The edge-list expression of `create_alpha_graph` as written in the
source: the comma missing after `(3, 6)` makes the seventh element the
application `(3, 6)(5, 2)`, evaluated after the first five pairs and
raising before the list is ever built. -/
def alphaEdgesExpr : Except PyErr (List (ℤ × ℤ)) := do
  let e7 ← tupleCall (3, 6) (5, 2)
  pure [(1, 2), (1, 4), (1, 5), (3, 2), (3, 4), e7, (5, 4), (5, 6)]

/-- The node list of `create_alpha_graph`. -/
def alphaNodes : List ℤ := [1, 2, 3, 4, 5, 6]

/-- `AlphaGraphAnalysis.create_alpha_graph`. -/
def create_alpha_graph : Except PyErr NXGraph := do
  let edges ← alphaEdgesExpr
  let g := addNodesFrom NXGraph.empty alphaNodes
  pure (addEdgesFrom g edges)

/-- The fields of `AlphaGraphAnalysis` set by `__init__`. -/
structure AlphaGraphAnalysis where
  G : NXGraph
  expected_g_from_paper : ℚ
  deriving DecidableEq

/-- `AlphaGraphAnalysis.__init__`: builds the graph, then stores the
benchmark constant `17/49`. -/
def AlphaGraphAnalysis.init : Except PyErr AlphaGraphAnalysis := do
  let g ← create_alpha_graph
  pure ⟨g, 17 / 49⟩

/-- The record a successful spectral computation would produce (§3 of
the design: vertex count, edge count, cycle rank, trace, g-factor). -/
structure SpectralResult where
  vertexCount : ℕ
  edgeCount : ℕ
  cycleRank : ℤ
  laplacianPseudoinverseTrace : ℚ
  gFactor : ℚ
  deriving DecidableEq

/-- The theoretical path of `main`: construct the analysis object, then
run `calculate_theoretical_g_factor` on its graph.  The float64 spectral
computation itself is abstracted by the parameter `calcG`; whatever it
would compute, it is only reached through a constructed analysis
object. -/
def theoreticalPath
    (calcG : NXGraph → Except PyErr SpectralResult) :
    Except PyErr SpectralResult := do
  let analyzer ← AlphaGraphAnalysis.init
  calcG analyzer.G

/-- The benchmark constant stored by `__init__`: `17/49`. -/
def expected_g_from_paper : ℚ := 17 / 49

/-- The fraction named in the printed label `"(109/245)"` of
`calculate_theoretical_g_factor`. -/
def labeledFraction : ℚ := 109 / 245

/-- The approximation in the `visualize_graph` title: `g ≈ 0.445`. -/
def titleApprox : ℚ := 445 / 1000

end Tetracyclic

/-! ## Statistics lemmas -/

namespace Gyration

theorem list_sum_sq_sub (l : List ℚ) (c : ℚ) :
    (l.map fun x => (x - c) ^ 2).sum
      = (l.map fun x => x ^ 2).sum - 2 * c * l.sum + l.length * c ^ 2 := by
  induction l with
  | nil => simp
  | cons a t ih =>
      simp only [List.map_cons, List.sum_cons, List.length_cons, ih,
        Nat.cast_succ]
      ring

theorem list_sum_sq_nonneg (l : List ℚ) (c : ℚ) :
    0 ≤ (l.map fun x => (x - c) ^ 2).sum := by
  induction l with
  | nil => simp
  | cons a t ih =>
      simp only [List.map_cons, List.sum_cons]
      exact add_nonneg (sq_nonneg _) ih

theorem list_sum_sq_eq_zero_iff (l : List ℚ) (c : ℚ) :
    (l.map fun x => (x - c) ^ 2).sum = 0 ↔ ∀ x ∈ l, x = c := by
  induction l with
  | nil => simp
  | cons a t ih =>
      simp only [List.map_cons, List.sum_cons, List.mem_cons]
      constructor
      · intro h
        obtain ⟨h1, h2⟩ :=
          (add_eq_zero_iff_of_nonneg (sq_nonneg _) (list_sum_sq_nonneg t c)).mp h
        have ha : a = c := by
          have := pow_eq_zero_iff (n := 2) (by norm_num) |>.mp h1
          linarith [sub_eq_zero.mp this]
        intro x hx
        rcases hx with rfl | hx
        · exact ha
        · exact ih.mp h2 x hx
      · intro h
        have ha : a - c = 0 := sub_eq_zero.mpr (h a (Or.inl rfl))
        have ht : (t.map fun x => (x - c) ^ 2).sum = 0 :=
          ih.mpr fun x hx => h x (Or.inr hx)
        simp [ha, ht]

theorem length_cast_ne_zero (l : List ℚ) (h : l ≠ []) :
    (l.length : ℚ) ≠ 0 :=
  Nat.cast_ne_zero.mpr fun h0 => h (List.length_eq_zero.mp h0)

theorem list_sum_of_const (l : List ℚ) (c : ℚ) (h : ∀ x ∈ l, x = c) :
    l.sum = l.length * c := by
  induction l with
  | nil => simp
  | cons a t ih =>
      have ha : a = c := h a (List.mem_cons_self a t)
      have ht : t.sum = t.length * c := ih fun x hx => h x (List.mem_cons_of_mem a hx)
      simp only [List.sum_cons, List.length_cons, ha, ht, Nat.cast_succ]
      ring

theorem popVariance_eq (l : List ℚ) :
    popVariance l = meanSquare l - mean l ^ 2 := by
  rcases eq_or_ne l [] with rfl | h
  · simp [popVariance, meanSquare, mean]
  · have hn : (l.length : ℚ) ≠ 0 := length_cast_ne_zero l h
    simp only [popVariance, meanSquare, mean, list_sum_sq_sub]
    field_simp
    ring

end Gyration

namespace Gyration

/-- C4: for every non-empty equilibrated sub-sequence, `meanSquare` is
the arithmetic mean of the element-wise squares; it differs from
`mean ^ 2` exactly when the population variance is nonzero, and agrees
with `mean ^ 2` exactly on constant sub-sequences. -/
theorem meanSquare_moment_distinction (l : List ℚ) (h : l ≠ []) :
    meanSquare l = (l.map fun x => x ^ 2).sum / l.length ∧
    (meanSquare l = mean l ^ 2 ↔ ∀ x ∈ l, x = mean l) ∧
    (popVariance l ≠ 0 → meanSquare l ≠ mean l ^ 2) ∧
    ((∀ x ∈ l, ∀ y ∈ l, x = y) → meanSquare l = mean l ^ 2) := by
  have hn : (l.length : ℚ) ≠ 0 := length_cast_ne_zero l h
  have hiff : meanSquare l = mean l ^ 2 ↔ ∀ x ∈ l, x = mean l := by
    rw [← sub_eq_zero, ← popVariance_eq]
    simp only [popVariance]
    rw [div_eq_zero_iff, or_iff_left hn, list_sum_sq_eq_zero_iff]
  refine ⟨rfl, hiff, ?_, ?_⟩
  · intro hv heq
    exact hv (by rw [popVariance_eq, heq, sub_self])
  · intro hc
    refine hiff.mpr ?_
    obtain ⟨a, t, rfl⟩ := List.exists_cons_of_ne_nil h
    have hall : ∀ x ∈ a :: t, x = a := fun x hx => hc x hx a (List.mem_cons_self a t)
    have hmean : mean (a :: t) = a := by
      simp only [mean, list_sum_of_const (a :: t) a hall]
      field_simp
    intro x hx
    rw [hmean]
    exact hall x hx

/-- C4 witness: `[1, 2]` has nonzero variance and `meanSquare ≠ mean ^ 2`
there; the constant `[3, 3]` has `meanSquare = mean ^ 2`. -/
theorem meanSquare_moment_distinction_witness :
    meanSquare [1, 2] ≠ mean [1, 2] ^ 2 ∧
    meanSquare [3, 3] = mean [3, 3] ^ 2 := by
  constructor
  · exact (meanSquare_moment_distinction [1, 2] (by simp)).2.2.1
      (by norm_num [popVariance, mean])
  · exact (meanSquare_moment_distinction [3, 3] (by simp)).2.2.2
      (by intro x hx y hy; simp at hx hy; rw [hx, hy])

/-- C5: the equilibration-window start fails for series of length
`≤ 1`; otherwise it is `⌊3N/4⌋`, forced to 1 when that floor is 0, and
every produced start satisfies `0 < start < N`; in particular the starts
for `N = 4, 5, 3, 2` are `3, 3, 2, 1`. -/
theorem equilibrationStart_spec (n : ℕ) :
    (n ≤ 1 → equilibrationStart n = .error .insufficientData) ∧
    (2 ≤ n → equilibrationStart n = .ok (if n * 3 / 4 = 0 then 1 else n * 3 / 4)) ∧
    (∀ s, equilibrationStart n = .ok s → 0 < s ∧ s < n) ∧
    equilibrationStart 4 = .ok 3 ∧ equilibrationStart 5 = .ok 3 ∧
    equilibrationStart 3 = .ok 2 ∧ equilibrationStart 2 = .ok 1 := by
  refine ⟨?_, ?_, ?_, rfl, rfl, rfl, rfl⟩
  · intro h
    interval_cases n <;> rfl
  · intro h
    have h4 : n * 3 / 4 ≠ 0 := by omega
    have h1 : ¬ n ≤ 1 := by omega
    simp [equilibrationStart, h4, h1]
  · intro s hs
    simp only [equilibrationStart] at hs
    split_ifs at hs with h1 h2
    · simp only [Except.ok.injEq] at hs
      omega
    · simp only [Except.ok.injEq] at hs
      omega

/-- C5 witness: the specification instantiated at `N = 5`. -/
theorem equilibrationStart_spec_witness :
    equilibrationStart 5 = .ok (if 5 * 3 / 4 = 0 then 1 else 5 * 3 / 4) ∧
    (0 < 3 ∧ 3 < 5) := by
  refine ⟨(equilibrationStart_spec 5).2.1 (by norm_num), ?_⟩
  exact (equilibrationStart_spec 5).2.2.1 3 ((equilibrationStart_spec 5).2.2.2.2.1)

end Gyration

namespace Gyration

/-- C6: on the 8-record demo series with values `[10,10,10,10,20,20,20,20]`
and `[5,5,5,5,10,10,10,10]` (timesteps 0..7), both analyses start the
equilibration window at index 6, the equilibrated sub-sequences are
`[20,20]` and `[10,10]`, the mean squares are exactly 400 and 100, and
the resulting ratio is exactly 4. -/
theorem end_to_end_demo :
    get_avg_rg_from_file alphaDemoLines =
      .ok ⟨400, 20, [0, 1, 2, 3, 4, 5, 6, 7],
           [10, 10, 10, 10, 20, 20, 20, 20], 6, [20, 20]⟩ ∧
    get_avg_rg_from_file treeDemoLines =
      .ok ⟨100, 10, [0, 1, 2, 3, 4, 5, 6, 7],
           [5, 5, 5, 5, 10, 10, 10, 10], 6, [10, 10]⟩ ∧
    mainRatio alphaDemoLines treeDemoLines = .ok (.fin 4) := by
  refine ⟨?_, ?_, ?_⟩ <;>
    simp [mainRatio, get_avg_rg_from_file, loadSeries, loadRows,
      equilibrationStart, meanSquare, mean, ratioStep, npDiv,
      alphaDemoLines, treeDemoLines, bind, Except.bind, Functor.map,
      Except.map, pure, Except.pure] <;>
    norm_num

/-- C7 counterexample: with a zero tree mean square the ratio step does
not fail with any error; it succeeds with the non-finite float `inf`. -/
theorem ratioStep_zero_denominator_counterexample :
    ratioStep 400 0 = .ok PyFloat.inf := by
  simp [ratioStep, npDiv]

/-- C7 amended: the ratio computation never fails; a zero tree mean
square yields a non-finite float64 (`nan` when the alpha mean square is
also 0, otherwise `±inf`) under IEEE semantics, and a nonzero one yields
`alpha.meanSquare / tree.meanSquare` unclamped. -/
theorem ratioStep_spec (a t : ℚ) :
    (t = 0 → ratioStep a t =
      .ok (if a = 0 then PyFloat.nan
           else if 0 < a then PyFloat.inf else PyFloat.ninf)) ∧
    (t ≠ 0 → ratioStep a t = .ok (.fin (a / t))) := by
  constructor
  · intro ht
    simp [ratioStep, npDiv, ht]
  · intro ht
    simp [ratioStep, npDiv, ht]

/-- C7 witness: the amended behavior at the concrete pairs `(400, 0)`
and `(400, 100)`. -/
theorem ratioStep_spec_witness :
    ratioStep 400 0 =
      .ok (if (400 : ℚ) = 0 then PyFloat.nan
           else if 0 < (400 : ℚ) then PyFloat.inf else PyFloat.ninf) ∧
    ratioStep 400 100 = .ok (.fin (400 / 100)) :=
  ⟨(ratioStep_spec 400 0).1 rfl, (ratioStep_spec 400 100).2 (by norm_num)⟩

/-- C8: every line stream yielding fewer than two data records after
comment/blank skipping makes the loading step fail, and
`get_avg_rg_from_file` produces no summary. -/
theorem loadSeries_few_records_fails (ls : List RawLine)
    (h : (loadRows ls).length < 2) :
    (∃ e, loadSeries ls = .error e) ∧
    (∃ e, get_avg_rg_from_file ls = .error e) := by
  have hl : ∃ e, loadSeries ls = .error e := by
    rcases hrows : loadRows ls with _ | ⟨r, rs⟩
    · exact ⟨.indexError "tuple index out of range", by simp [loadSeries, hrows]⟩
    · rw [hrows] at h
      have hrs : rs = [] := by
        simp only [List.length_cons] at h
        exact List.length_eq_zero.mp (by omega)
      subst hrs
      rcases r with _ | ⟨a, as⟩
      · exact ⟨.indexError "tuple index out of range", by simp [loadSeries, hrows]⟩
      · rcases as with _ | ⟨b, bs⟩
        · exact ⟨.noValidData, by simp [loadSeries, hrows]⟩
        · exact ⟨.indexError "tuple index out of range", by simp [loadSeries, hrows]⟩
  obtain ⟨e, he⟩ := hl
  exact ⟨⟨e, he⟩, ⟨e, by simp [get_avg_rg_from_file, he, bind, Except.bind]⟩⟩

/-- C8 witness: a file containing only a comment line yields zero data
records; the loader fails and no time series is produced. -/
theorem loadSeries_few_records_fails_witness :
    (loadRows [RawLine.comment]).length < 2 ∧
    ((∃ e, loadSeries [RawLine.comment] = .error e) ∧
     (∃ e, get_avg_rg_from_file [RawLine.comment] = .error e)) := by
  refine ⟨by simp [loadRows], ?_⟩
  exact loadSeries_few_records_fails [RawLine.comment] (by simp [loadRows])

end Gyration

namespace Tetracyclic

/-- C1 counterexample: the default graph factory returns no graph at
all (so in particular not the complete bipartite K(3,3)): its result
carries no `ok` value. -/
theorem create_alpha_graph_returns_no_graph :
    create_alpha_graph.toOption = none := rfl

/-- C1 amended: every invocation of the default graph factory raises a
`TypeError` — the edge-list expression applies the tuple `(3, 6)` to
`(5, 2)` — and returns no graph. -/
theorem create_alpha_graph_raises :
    create_alpha_graph = .error (.typeError "tuple object is not callable") := rfl

/-- C2: evaluating the edge-list expression raises a `TypeError`
(applying the tuple `(3, 6)` to `(5, 2)`), hence `create_alpha_graph`
and `AlphaGraphAnalysis.__init__` raise on every invocation and the
theoretical spectral path never produces a `SpectralResult`, whatever
the spectral computation would do. -/
theorem alpha_construction_always_raises
    (calcG : NXGraph → Except PyErr SpectralResult) :
    alphaEdgesExpr = .error (.typeError "tuple object is not callable") ∧
    create_alpha_graph = .error (.typeError "tuple object is not callable") ∧
    AlphaGraphAnalysis.init = .error (.typeError "tuple object is not callable") ∧
    theoreticalPath calcG = .error (.typeError "tuple object is not callable") :=
  ⟨rfl, rfl, rfl, rfl⟩

/-- C2 witness: the theoretical path at one concrete spectral
computation still yields the construction-time `TypeError`. -/
theorem alpha_construction_always_raises_witness :
    theoreticalPath (fun _ => .ok ⟨6, 9, 4, 0, 0⟩) =
      .error (.typeError "tuple object is not callable") :=
  (alpha_construction_always_raises (fun _ => .ok ⟨6, 9, 4, 0, 0⟩)).2.2.2

/-- C9 counterexample: constructing a graph over vertex set `{1}` with
the self-loop edge `(1, 1)` succeeds and stores the self-loop, and
constructing over `{1, 2}` with the dangling edge `(1, 5)` silently
adds the missing vertex 5 instead of failing. -/
theorem graph_construction_no_validation_counterexample :
    (addEdgesFrom (addNodesFrom NXGraph.empty [1]) [(1, 1)]).edges = {s(1, 1)} ∧
    Sym2.IsDiag s(1, 1) ∧
    (addEdgesFrom (addNodesFrom NXGraph.empty [1, 2]) [(1, 5)]).nodes
      = {1, 5, 2} := by
  refine ⟨?_, by decide, ?_⟩
  · simp [addEdgesFrom, addEdge, addNodesFrom, NXGraph.empty]
  · simp only [addEdgesFrom, addEdge, addNodesFrom, NXGraph.empty,
      List.foldl_cons, List.foldl_nil]
    decide

/-- C9 amended: graph construction performs no validation and never
fails: `add_edge` stores the (possibly self-loop) edge and silently
inserts endpoints missing from the vertex set; no `InvalidGraphError`
exists. -/
theorem addEdge_no_validation (g : NXGraph) (u v : ℤ) :
    (addEdge g u v).edges = insert s(u, v) g.edges ∧
    s(u, v) ∈ (addEdge g u v).edges ∧
    u ∈ (addEdge g u v).nodes ∧ v ∈ (addEdge g u v).nodes := by
  refine ⟨rfl, ?_, ?_, ?_⟩ <;> simp [addEdge]

/-- C9 witness: the amended statement at the concrete self-loop
`add_edge(1, 1)` on the empty graph. -/
theorem addEdge_no_validation_witness :
    (addEdge NXGraph.empty 1 1).edges = insert s(1, 1) NXGraph.empty.edges ∧
    s(1, 1) ∈ (addEdge NXGraph.empty 1 1).edges ∧
    (1 : ℤ) ∈ (addEdge NXGraph.empty 1 1).nodes ∧
    (1 : ℤ) ∈ (addEdge NXGraph.empty 1 1).nodes :=
  addEdge_no_validation NXGraph.empty 1 1

/-- C10: the stored benchmark constant equals `17/49 ≈ 0.346939`, which
differs from the `109/245 ≈ 0.444898` named in the printed label and
approximated as `0.445` in the visualization title: the constant and
its reported identity are mutually inconsistent. -/
theorem benchmark_constant_inconsistent :
    expected_g_from_paper = 17 / 49 ∧
    labeledFraction = 109 / 245 ∧
    expected_g_from_paper ≠ labeledFraction ∧
    |expected_g_from_paper - 346939 / 1000000| < 1 / 1000000 ∧
    |labeledFraction - 444898 / 1000000| < 1 / 1000000 ∧
    |labeledFraction - titleApprox| < 1 / 1000 ∧
    9 / 100 < |expected_g_from_paper - titleApprox| := by
  norm_num [expected_g_from_paper, labeledFraction, titleApprox, abs_lt, lt_abs]

end Tetracyclic
